import Mathlib

/-!
Verification of the hospital-management privacy core (`privacy.py`, `auth.py`,
`db.py`, `app.py`) against its natural-language specification.  The Python
source is shallowly embedded: pure functions become Lean functions on
`Nat`/`String`/`List`, SQLite tables become lists of records, and the
Streamlit dashboards' row construction becomes record-projection functions.
-/

namespace HMS

/-! ### 32-bit arithmetic helpers (Python ints truncated as SHA-256 requires) -/

def w32 (n : Nat) : Nat := n % 4294967296

def rotr (n x : Nat) : Nat := w32 ((x >>> n) ||| (x <<< (32 - n)))

def smallSigma0 (x : Nat) : Nat := (rotr 7 x) ^^^ (rotr 18 x) ^^^ (x >>> 3)

def smallSigma1 (x : Nat) : Nat := (rotr 17 x) ^^^ (rotr 19 x) ^^^ (x >>> 10)

def bigSigma0 (x : Nat) : Nat := (rotr 2 x) ^^^ (rotr 13 x) ^^^ (rotr 22 x)

def bigSigma1 (x : Nat) : Nat := (rotr 6 x) ^^^ (rotr 11 x) ^^^ (rotr 25 x)

def chOf (e f g : Nat) : Nat := (e &&& f) ^^^ ((e ^^^ 4294967295) &&& g)

def majOf (a b c : Nat) : Nat := (a &&& b) ^^^ (a &&& c) ^^^ (b &&& c)

/-! ### SHA-256 (the `hashlib.sha256` collaborator used by `privacy.py`) -/

def sha256K : List Nat :=
  [1116352408, 1899447441, 3049323471, 3921009573, 961987163, 1508970993,
   2453635748, 2870763221, 3624381080, 310598401, 607225278, 1426881987,
   1925078388, 2162078206, 2614888103, 3248222580, 3835390401, 4022224774,
   264347078, 604807628, 770255983, 1249150122, 1555081692, 1996064986,
   2554220882, 2821834349, 2952996808, 3210313671, 3336571891, 3584528711,
   113926993, 338241895, 666307205, 773529912, 1294757372, 1396182291,
   1695183700, 1986661051, 2177026350, 2456956037, 2730485921, 2820302411,
   3259730800, 3345764771, 3516065817, 3600352804, 4094571909, 275423344,
   430227734, 506948616, 659060556, 883997877, 958139571, 1322822218,
   1537002063, 1747873779, 1955562222, 2024104815, 2227730452, 2361852424,
   2428436474, 2756734187, 3204031479, 3329325298]

structure Hash8 where
  a : Nat
  b : Nat
  c : Nat
  d : Nat
  e : Nat
  f : Nat
  g : Nat
  h : Nat

def sha256H0 : Hash8 :=
  ⟨1779033703, 3144134277, 1013904242, 2773480762,
   1359893119, 2600822924, 528734635, 1541459225⟩

/-- Big-endian fixed-width byte expansion of a natural number. -/
def bytesBE : Nat → Nat → List Nat
  | 0, _ => []
  | k + 1, n => bytesBE k (n / 256) ++ [n % 256]

/-- SHA-256 padding of a byte string. -/
def sha256Pad (msg : List Nat) : List Nat :=
  let len := msg.length
  let zeros := (64 - (len + 9) % 64) % 64
  msg ++ [0x80] ++ List.replicate zeros 0 ++ bytesBE 8 (8 * len)

/-- Group bytes into big-endian 32-bit words. -/
def toWords : List Nat → List Nat
  | b0 :: b1 :: b2 :: b3 :: rest => (((b0 * 256 + b1) * 256 + b2) * 256 + b3) :: toWords rest
  | _ => []

/-- Extend a 16-word block to the 64-word message schedule (`k` more rounds to go). -/
def extendSchedule : Nat → List Nat → List Nat
  | 0, w => w
  | k + 1, w =>
    let i := w.length
    let wi := w32 (w.getD (i - 16) 0 + smallSigma0 (w.getD (i - 15) 0) +
                   w.getD (i - 7) 0 + smallSigma1 (w.getD (i - 2) 0))
    extendSchedule k (w ++ [wi])

def compressRound (s : Hash8) (kw : Nat × Nat) : Hash8 :=
  let t1 := w32 (s.h + bigSigma1 s.e + chOf s.e s.f s.g + kw.1 + kw.2)
  let t2 := w32 (bigSigma0 s.a + majOf s.a s.b s.c)
  ⟨w32 (t1 + t2), s.a, s.b, s.c, w32 (s.d + t1), s.e, s.f, s.g⟩

def sha256Compress (s : Hash8) (block : List Nat) : Hash8 :=
  let w := extendSchedule 48 block
  let t := (sha256K.zip w).foldl compressRound s
  ⟨w32 (s.a + t.a), w32 (s.b + t.b), w32 (s.c + t.c), w32 (s.d + t.d),
   w32 (s.e + t.e), w32 (s.f + t.f), w32 (s.g + t.g), w32 (s.h + t.h)⟩

/-- Process the word stream one 16-word block at a time; `fuel` bounds the recursion. -/
def processBlocks : Nat → List Nat → Hash8 → Hash8
  | 0, _, s => s
  | fuel + 1, ws, s =>
    if ws.isEmpty then s
    else processBlocks fuel (ws.drop 16) (sha256Compress s (ws.take 16))

def sha256Words (msg : List Nat) : Hash8 :=
  let ws := toWords (sha256Pad msg)
  processBlocks ws.length ws sha256H0

def hexChar (n : Nat) : Char := ("0123456789abcdef".data).getD n '0'

/-- Fixed-width lowercase hexadecimal rendering (width `k`). -/
def toHexFixed : Nat → Nat → List Char
  | 0, _ => []
  | k + 1, n => toHexFixed k (n / 16) ++ [hexChar (n % 16)]

def hexOfHash (s : Hash8) : List Char :=
  toHexFixed 8 s.a ++ toHexFixed 8 s.b ++ toHexFixed 8 s.c ++ toHexFixed 8 s.d ++
  toHexFixed 8 s.e ++ toHexFixed 8 s.f ++ toHexFixed 8 s.g ++ toHexFixed 8 s.h

/-- UTF-8 encoding of one character (the `str.encode("utf-8")` collaborator). -/
def encodeChar (c : Char) : List Nat :=
  let n := c.toNat
  if n < 0x80 then [n]
  else if n < 0x800 then [0xC0 ||| (n >>> 6), 0x80 ||| (n &&& 0x3F)]
  else if n < 0x10000 then
    [0xE0 ||| (n >>> 12), 0x80 ||| ((n >>> 6) &&& 0x3F), 0x80 ||| (n &&& 0x3F)]
  else
    [0xF0 ||| (n >>> 18), 0x80 ||| ((n >>> 12) &&& 0x3F),
     0x80 ||| ((n >>> 6) &&& 0x3F), 0x80 ||| (n &&& 0x3F)]

def utf8Encode (s : String) : List Nat := (s.data.map encodeChar).flatten

/-- `hashlib.sha256(... .encode("utf-8")).hexdigest()`. -/
def sha256Hexdigest (s : String) : String := String.mk (hexOfHash (sha256Words (utf8Encode s)))

/-! ### `privacy.py`: password hashing, `auth.py`: verification -/

/-- `privacy.hash_password`: SHA-256 hex digest of the UTF-8 password bytes. -/
def hash_password (password : String) : String := sha256Hexdigest password

/-- `privacy.verify_password_hash`: digest of the plain password compared to the stored hash. -/
def verify_password_hash (plain_password stored_hash : String) : Bool :=
  hash_password plain_password == stored_hash

/-- `auth.verify_password`: dispatch on `len(stored_password) == 64`. -/
def verify_password (plain_password stored_password : String) : Bool :=
  if stored_password.length == 64 then verify_password_hash plain_password stored_password
  else plain_password == stored_password

/-! ### `privacy.py`: anonymization and masking -/

/-- `privacy.anonymize_name`: `None`/empty input falls through Python truthiness to `None`;
otherwise the first 6 hex-digest characters are uppercased behind the `ANON_` tag. -/
def anonymize_name : Option String → Option String
  | none => none
  | some original_name =>
    if original_name.isEmpty then none
    else some ("ANON_" ++ String.mk (((sha256Hexdigest original_name).data.take 6).map Char.toUpper))

/-- `privacy.mask_contact`: `None`/empty input gives `None`; otherwise keep the last
4 digits after stripping non-digits, with a fixed sentinel when fewer than 4 remain. -/
def mask_contact : Option String → Option String
  | none => none
  | some contact =>
    if contact.isEmpty then none
    else
      let digits := contact.data.filter Char.isDigit
      if 4 ≤ digits.length then
        some ("XXX-XXX-" ++ String.mk (digits.drop (digits.length - 4)))
      else some "XXX-XXX-XXXX"

/-! ### `privacy.py`: input validation -/

/-- Character class of the name pattern `[a-zA-Z\s.\-']` (letters, whitespace, dot,
hyphen, apostrophe). -/
def allowedNameChar (c : Char) : Bool :=
  c.isAlpha || c = ' ' || c = '\t' || c = '\n' || c = '\r' || c = '\x0b' || c = '\x0c' ||
  c = '.' || c = '-' || c = '\''

/-- `privacy.validate_name`. -/
def validate_name (name : String) : Bool × String :=
  if name.isEmpty then (false, "Name cannot be empty")
  else if name.length < 2 then (false, "Name must be at least 2 characters")
  else if 100 < name.length then (false, "Name too long (max 100 characters)")
  else if !(name.data.all allowedNameChar) then
    (false, "Name can only contain letters, spaces, dots, and hyphens")
  else (true, "")

/-- `privacy.validate_contact`. -/
def validate_contact (contact : String) : Bool × String :=
  if contact.isEmpty then (false, "Contact cannot be empty")
  else
    let digits := contact.data.filter Char.isDigit
    if digits.length < 10 then (false, "Contact must have at least 10 digits")
    else if 15 < digits.length then (false, "Contact number too long")
    else (true, "")

/-- `privacy.validate_diagnosis`. -/
def validate_diagnosis (diagnosis : String) : Bool × String :=
  if diagnosis.isEmpty then (false, "Diagnosis cannot be empty")
  else if diagnosis.length < 3 then (false, "Diagnosis too short (min 3 characters)")
  else if 500 < diagnosis.length then (false, "Diagnosis too long (max 500 characters)")
  else (true, "")

/-! ### The patients table (`db.py`) -/

/-- One row of the `patients` table; `anonymized_name`/`anonymized_contact` are
nullable columns (`none` models SQL NULL). -/
structure PatientRecord where
  patient_id : Nat
  name : String
  contact : String
  diagnosis : String
  anonymized_name : Option String
  anonymized_contact : Option String
  date_added : String
  deriving DecidableEq, Repr

/-- Python truthiness of a nullable string: `None` and `""` are falsy. -/
def truthyOpt : Option String → Bool
  | none => false
  | some s => !s.isEmpty

/-- The Python idiom `value or default` on a nullable string. -/
def pyOr (o : Option String) (default : String) : String :=
  match o with
  | none => default
  | some s => if s.isEmpty then default else s

/-! ### Role projections (`app.py` dashboards) -/

/-- The dict literal built per patient in `show_doctor_dashboard` (app.py 630-636):
these five keys and nothing else. -/
structure DoctorRow where
  patient_id : Nat
  anonymized_name : String
  anonymized_contact : String
  diagnosis : String
  date_added : String
  deriving DecidableEq, Repr

/-- The diagnosis cell of the doctor view (app.py 618-628): redacted when
`p["anonymized_name"]` is truthy, otherwise decrypted when encryption is active.
`useEncryption` stands for `st.session_state.use_encryption and FERNET_AVAILABLE`,
and `dec` for `decrypt_value` under the initialized key (total on the read path). -/
def doctorDisplayDiagnosis (useEncryption : Bool) (dec : String → String)
    (p : PatientRecord) : String :=
  if truthyOpt p.anonymized_name then "***CONFIDENTIAL - ANONYMIZED***"
  else if useEncryption then dec p.diagnosis else p.diagnosis

/-- One row of the doctor view (app.py 616-636). -/
def doctorRow (useEncryption : Bool) (dec : String → String) (p : PatientRecord) : DoctorRow :=
  { patient_id := p.patient_id
    anonymized_name := pyOr p.anonymized_name "NOT_ANONYMIZED"
    anonymized_contact := pyOr p.anonymized_contact "NOT_ANONYMIZED"
    diagnosis := doctorDisplayDiagnosis useEncryption dec p
    date_added := p.date_added }

/-- `show_doctor_dashboard`'s `simplified` list. -/
def show_doctor_dashboard (useEncryption : Bool) (dec : String → String)
    (patients : List PatientRecord) : List DoctorRow :=
  patients.map (doctorRow useEncryption dec)

/-- The dict literal built per patient in `show_receptionist_dashboard`
(app.py 719-723): these three keys and nothing else. -/
structure ReceptionistRow where
  patient_id : Nat
  diagnosis : String
  date_added : String
  deriving DecidableEq, Repr

/-- One row of the receptionist limited view (app.py 710-723). -/
def receptionistRow (useEncryption : Bool) (dec : String → String)
    (p : PatientRecord) : ReceptionistRow :=
  { patient_id := p.patient_id
    diagnosis := if useEncryption then dec p.diagnosis else p.diagnosis
    date_added := p.date_added }

/-- `show_receptionist_dashboard`'s `limited_rows` list. -/
def show_receptionist_dashboard (useEncryption : Bool) (dec : String → String)
    (patients : List PatientRecord) : List ReceptionistRow :=
  patients.map (receptionistRow useEncryption dec)

/-! ### Fernet encryption wrappers (`privacy.py`) -/

/-- `privacy.encrypt_value`: raises (`Except.error`) when the library is missing or the
key is uninitialized; otherwise encrypts under the process key.  `enc` is the Fernet
library's `encrypt` (token as UTF-8 text). -/
def encrypt_value {K : Type} (fernetAvailable : Bool) (key : Option K)
    (enc : K → String → String) (value : String) : Except String String :=
  if !fernetAvailable then
    .error "cryptography package not installed. Install with: pip install cryptography"
  else
    match key with
    | none => .error "Encryption key not initialized"
    | some k => .ok (enc k value)

/-- `privacy.decrypt_value`: same guards; the Fernet library's `decrypt` (`dec`) returns
`none` when it would raise `InvalidToken`, and the `try/except` turns that into
returning the original token unchanged. -/
def decrypt_value {K : Type} (fernetAvailable : Bool) (key : Option K)
    (dec : K → String → Option String) (token : String) : Except String String :=
  if !fernetAvailable then
    .error "cryptography package not installed. Install with: pip install cryptography"
  else
    match key with
    | none => .error "Encryption key not initialized"
    | some k =>
      match dec k token with
      | some value => .ok value
      | none => .ok token

/-! ### Consent tracking (`db.py`) -/

/-- One row of the `consent_log` table. -/
structure ConsentRecord where
  consent_id : Nat
  user_id : Nat
  consent_type : String
  timestamp : String
  deriving DecidableEq, Repr

/-- Insertion step of an insertion sort under a boolean "goes before or level" test. -/
def insertBy {α : Type} (le : α → α → Bool) (a : α) : List α → List α
  | [] => [a]
  | b :: bs => if le a b then a :: b :: bs else b :: insertBy le a bs

/-- Insertion sort (models SQL `ORDER BY`). -/
def sortBy {α : Type} (le : α → α → Bool) : List α → List α
  | [] => []
  | a :: as => insertBy le a (sortBy le as)

/-- `db.get_user_consent`: rows of this `user_id`, newest first, first row or `None`.
The `consent_type` never enters the query. -/
def get_user_consent (db : List ConsentRecord) (user_id : Nat) : Option ConsentRecord :=
  (sortBy (fun r s => decide (s.timestamp ≤ r.timestamp))
    (db.filter (fun r => r.user_id == user_id))).head?

/-- The consent gate of `show_consent_banner` (app.py 87-91): the banner is skipped —
the user counts as having consented — exactly when `get_user_consent` returns a row. -/
def consent_gate (db : List ConsentRecord) (user_id : Nat) : Bool :=
  (get_user_consent db user_id).isSome

/-! ### Retention (`db.py`) -/

/-- The three columns selected by `db.get_patients_for_deletion`. -/
structure DeletionRow where
  patient_id : Nat
  anonymized_name : Option String
  date_added : String
  deriving DecidableEq, Repr

def deletionRow (r : PatientRecord) : DeletionRow :=
  ⟨r.patient_id, r.anonymized_name, r.date_added⟩

/-- `db.get_patients_for_deletion`: rows with `date_added < cutoff`, `ORDER BY
date_added ASC`, projected to three columns.  `cutoff` is the formatted
`now - timedelta(days=days)` timestamp; SQLite compares these TEXT timestamps
lexicographically, which on `"%Y-%m-%d %H:%M:%S"` strings is chronological order. -/
def get_patients_for_deletion (db : List PatientRecord) (cutoff : String) : List DeletionRow :=
  (sortBy (fun r s => decide (r.date_added ≤ s.date_added))
    (db.filter (fun r => decide (r.date_added < cutoff)))).map deletionRow

/-- `db.delete_old_records`: `DELETE FROM patients WHERE date_added < cutoff`,
returning the remaining table and `cur.rowcount` (the number of deleted rows). -/
def delete_old_records (db : List PatientRecord) (cutoff : String) :
    List PatientRecord × Nat :=
  (db.filter (fun r => !(decide (r.date_added < cutoff))),
   (db.filter (fun r => decide (r.date_added < cutoff))).length)

/-! ### Reachable database states (`app.py` write paths) -/

/-- The write operations the app can perform on the patients table.  `date` carries the
external clock value SQLite would fill into `date_added`; `cutoff` the retention
cutoff timestamp. -/
inductive AppOp where
  | addPatient (name contact diagnosis date : String)
  | updatePatient (pid : Nat) (name contact diagnosis : String)
  | deletePatient (pid : Nat)
  | anonymizeAll
  | deleteOldRecords (cutoff : String)

structure DBState where
  patients : List PatientRecord
  next_id : Nat

/-- Both add-patient forms and the admin edit form run all three validators and only
write when every one passes (app.py 259-278, 376-395, 662-681). -/
def validateAll (name contact diagnosis : String) : Bool :=
  (validate_name name).1 && (validate_contact contact).1 && (validate_diagnosis diagnosis).1

/-- One app-level write, as gated by the dashboards.  `anonymizeAll` is the admin bulk
loop (app.py 294-304): per record `set_patient_anonymized(id, anonymize_name(name),
mask_contact(contact))`. -/
def applyOp (st : DBState) : AppOp → DBState
  | .addPatient n c d date =>
    if validateAll n c d then
      { patients := st.patients ++ [⟨st.next_id, n, c, d, none, none, date⟩]
        next_id := st.next_id + 1 }
    else st
  | .updatePatient pid n c d =>
    if validateAll n c d then
      { st with
        patients := st.patients.map (fun r =>
          if r.patient_id == pid then { r with name := n, contact := c, diagnosis := d }
          else r) }
    else st
  | .deletePatient pid =>
    { st with patients := st.patients.filter (fun r => !(r.patient_id == pid)) }
  | .anonymizeAll =>
    { st with
      patients := st.patients.map (fun r =>
        { r with
          anonymized_name := anonymize_name (some r.name)
          anonymized_contact := mask_contact (some r.contact) }) }
  | .deleteOldRecords cutoff =>
    { st with patients := st.patients.filter (fun r => !(decide (r.date_added < cutoff))) }

/-- Run a sequence of app operations from the empty, freshly initialized database. -/
def runOps (ops : List AppOp) : DBState :=
  ops.foldl applyOp ⟨[], 1⟩

/-- The atomicity invariant of §3: anonymized fields both set or both unset. -/
def anonAtomic (r : PatientRecord) : Bool :=
  r.anonymized_name.isSome == r.anonymized_contact.isSome

/-- Strengthened invariant carried through the induction: validated writes keep raw
name and contact non-empty, which is what makes bulk anonymization atomic per record. -/
def recWellFormed (r : PatientRecord) : Bool :=
  !r.name.isEmpty && !r.contact.isEmpty && anonAtomic r

/-! ### Spec-side formulations (for refinement comparisons) -/

/-- Spec side: a 64-character hexadecimal string, the format the spec claims the
credential dispatch tests for. -/
def is_hex_64 (s : String) : Bool :=
  s.length == 64 &&
  s.data.all (fun c => c.isDigit || ('a' ≤ c && c ≤ 'f') || ('A' ≤ c && c ≤ 'F'))

/-- Spec side (amended C9): absent or empty contact gives absent output; otherwise
keep the last 4 digits, with the fixed sentinel when fewer than 4 remain. -/
def maskContactSpec : Option String → Option String
  | none => none
  | some s =>
    if s = "" then none
    else
      let ds := s.data.filter Char.isDigit
      if ds.length < 4 then some "XXX-XXX-XXXX"
      else some ("XXX-XXX-" ++ String.mk ((ds.reverse.take 4).reverse))

/-- Spec side (amended C2): the doctor's diagnosis cell shows the (possibly decrypted)
diagnosis when `anonymized_name` is absent or empty, and the fixed redaction sentinel
otherwise. -/
def doctorDiagnosisSpec (useEncryption : Bool) (dec : String → String)
    (p : PatientRecord) : String :=
  if p.anonymized_name = none ∨ p.anonymized_name = some "" then
    (if useEncryption then dec p.diagnosis else p.diagnosis)
  else "***CONFIDENTIAL - ANONYMIZED***"

/-- A 64-character non-hexadecimal stored credential (used to separate the spec's
hex-format dispatch from the code's length-only dispatch). -/
def zs64 : String :=
  "zzzzzzzzzzzzzzzzzzzzzzzzzzzzzzzzzzzzzzzzzzzzzzzzzzzzzzzzzzzzzzzz"

set_option maxRecDepth 100000 in
/-- Known-answer test for the SHA-256 embedding: FIPS 180-2 test vector for "abc". -/
theorem sha256_known_answer :
    sha256Hexdigest "abc" = "ba7816bf8f01cfea414140de5dae2223b00361a396177a9cb410ff61f20015ad" := by
  decide

/-! ### Auxiliary lemmas -/

theorem toHexFixed_length (k : Nat) : ∀ n, (toHexFixed k n).length = k := by
  induction k with
  | zero => intro n; rfl
  | succ k ih => intro n; simp [toHexFixed, ih]

theorem hash_password_length (p : String) : (hash_password p).length = 64 := by
  have h : (hash_password p).length = (hexOfHash (sha256Words (utf8Encode p))).length := rfl
  simp [h, hexOfHash, toHexFixed_length]

/-! ### C1 -/

/-- C1: the doctor view row carries exactly {patient_id, anonymized_name-or-sentinel,
anonymized_contact-or-sentinel, diagnosis, date_added} and the receptionist row exactly
{patient_id, diagnosis, date_added} (the `DoctorRow`/`ReceptionistRow` structures embed
the dict literals); two records differing only in raw name and contact produce
identical doctor and receptionist rows — raw name/contact never flow into these views. -/
theorem doctor_receptionist_raw_noflow (useEncryption : Bool) (dec : String → String)
    (pid : Nat) (diag : String) (an ac : Option String) (da : String)
    (name1 contact1 name2 contact2 : String) :
    doctorRow useEncryption dec ⟨pid, name1, contact1, diag, an, ac, da⟩ =
      doctorRow useEncryption dec ⟨pid, name2, contact2, diag, an, ac, da⟩ ∧
    receptionistRow useEncryption dec ⟨pid, name1, contact1, diag, an, ac, da⟩ =
      receptionistRow useEncryption dec ⟨pid, name2, contact2, diag, an, ac, da⟩ :=
  ⟨rfl, rfl⟩

/-- C1 witness: the independence at a pair of concrete records that differ in raw
name and contact only. -/
theorem doctor_receptionist_raw_noflow_witness :
    doctorRow true (fun s => s) ⟨7, "Jane Doe", "555-000-1234", "flu", none, none, "2025-01-02 03:04:05"⟩ =
      doctorRow true (fun s => s) ⟨7, "John Roe", "555-999-8888", "flu", none, none, "2025-01-02 03:04:05"⟩ ∧
    receptionistRow true (fun s => s) ⟨7, "Jane Doe", "555-000-1234", "flu", none, none, "2025-01-02 03:04:05"⟩ =
      receptionistRow true (fun s => s) ⟨7, "John Roe", "555-999-8888", "flu", none, none, "2025-01-02 03:04:05"⟩ :=
  doctor_receptionist_raw_noflow true (fun s => s) 7 "flu" none none "2025-01-02 03:04:05"
    "Jane Doe" "555-000-1234" "John Roe" "555-999-8888"

/-! ### C2 -/

/-- C2 counterexample: at an anonymized record the doctor view's diagnosis cell is the
sentinel `"***CONFIDENTIAL - ANONYMIZED***"`, not `"CONFIDENTIAL"`; and at a record
whose `anonymized_name` is present but empty (Python-falsy) the diagnosis is shown
rather than redacted, although the claim calls every non-absent value anonymized. -/
theorem doctor_redaction_counterexample :
    (doctorRow false (fun s => s)
        ⟨1, "John Smith", "555-000-1234", "flu", some "ANON_AB12CD", some "XXX-XXX-1234",
         "2025-01-01 00:00:00"⟩).diagnosis ≠ "CONFIDENTIAL" ∧
    (doctorRow false (fun s => s)
        ⟨2, "John Smith", "555-000-1234", "flu", some "", some "XXX-XXX-1234",
         "2025-01-01 00:00:00"⟩).diagnosis = "flu" := by
  decide

/-- C2 amended: the doctor view decides "anonymized" by Python truthiness of
`anonymized_name` (present and non-empty); then the diagnosis is the fixed sentinel
`"***CONFIDENTIAL - ANONYMIZED***"`, otherwise it is shown (decrypted when encryption
is enabled); `anonymized_contact` alone never triggers redaction. -/
theorem doctor_redaction_decision (useEncryption : Bool) (dec : String → String)
    (p : PatientRecord) :
    (doctorRow useEncryption dec p).diagnosis = doctorDiagnosisSpec useEncryption dec p := by
  rcases p with ⟨pid, n, c, d, an, ac, da⟩
  cases an with
  | none => simp [doctorRow, doctorDisplayDiagnosis, doctorDiagnosisSpec, truthyOpt]
  | some s =>
    by_cases hs : s = "" <;>
      simp [doctorRow, doctorDisplayDiagnosis, doctorDiagnosisSpec, truthyOpt,
            String.isEmpty_iff, hs]

/-! ### C3 -/

set_option maxRecDepth 1000000 in
/-- C3 counterexample: a 64-character stored value that is not hexadecimal.  By the
claim it would fall into the legacy branch and `verify(s, s)` would succeed by exact
equality; the code dispatches on length alone, compares the SHA-256 digest of the
password against the stored value, and rejects. -/
theorem verify_password_hex_counterexample :
    is_hex_64 zs64 = false ∧ zs64.length = 64 ∧ verify_password zs64 zs64 = false := by
  refine ⟨by decide, by decide, ?_⟩
  decide

/-- C3 amended: the dispatch tests only `len(stored) == 64`: any 64-character stored
value (hexadecimal or not) is compared against the SHA-256 digest of the submitted
password, and any stored value of a different length is compared for exact,
case-sensitive equality with no normalization. -/
theorem verify_password_length_dispatch (plain stored : String) :
    verify_password plain stored = true ↔
      (if stored.length = 64 then hash_password plain = stored else plain = stored) := by
  by_cases h : stored.length = 64 <;>
    simp [verify_password, verify_password_hash, h]

/-! ### C9 -/

/-- C9 counterexample: the empty string is a present (non-absent) contact with fewer
than 4 digits, so the claim requires the fixed sentinel `"XXX-XXX-XXXX"`; the code's
Python truthiness test `if not contact` returns `None` instead. -/
theorem mask_contact_counterexample :
    mask_contact (some "") = none ∧ mask_contact (some "") ≠ some "XXX-XXX-XXXX" := by
  decide

/-- C9 amended: absent or empty input yields absent output; otherwise, after stripping
all non-digit characters, fewer than 4 remaining digits give the fixed sentinel
`"XXX-XXX-XXXX"` and otherwise the output is `"XXX-XXX-"` followed by the last 4
digits. -/
theorem mask_contact_spec_eq (c : Option String) : mask_contact c = maskContactSpec c := by
  cases c with
  | none => rfl
  | some s =>
    by_cases hs : s = ""
    · simp [mask_contact, maskContactSpec, String.isEmpty_iff, hs]
    · have hrt : ∀ (l : List Char), (l.reverse.take 4).reverse = l.drop (l.length - 4) := by
        intro l
        rw [← List.rtake_eq_reverse_take_reverse, List.rtake]
      by_cases hlen : 4 ≤ (s.data.filter Char.isDigit).length
      · simp [mask_contact, maskContactSpec, String.isEmpty_iff, hs, hrt,
              Nat.not_lt.mpr hlen, hlen]
      · simp [mask_contact, maskContactSpec, String.isEmpty_iff, hs,
              Nat.lt_of_not_le hlen, hlen]

/-- C9 witness: the spec equation evaluated at the claim's concrete examples. -/
theorem mask_contact_spec_eq_witness :
    mask_contact (some "555-123-4567") = maskContactSpec (some "555-123-4567") ∧
    mask_contact (some "12") = maskContactSpec (some "12") ∧
    mask_contact none = maskContactSpec none ∧
    mask_contact (some "555-123-4567") = some "XXX-XXX-4567" ∧
    mask_contact (some "12") = some "XXX-XXX-XXXX" :=
  ⟨mask_contact_spec_eq (some "555-123-4567"), mask_contact_spec_eq (some "12"),
   mask_contact_spec_eq none, by decide, by decide⟩

/-! ### C10 -/

/-- C10: a freshly hashed credential always verifies: `hash_password` produces a
64-character digest, so `verify_password` routes it to the digest comparison, which
succeeds for the same password. -/
theorem verify_hash_roundtrip (p : String) : verify_password p (hash_password p) = true := by
  simp [verify_password, verify_password_hash, hash_password_length]

/-! ### C4 -/

theorem insertBy_head_isSome {α : Type} (le : α → α → Bool) (a : α) (l : List α) :
    ((insertBy le a l).head?).isSome = true := by
  cases l with
  | nil => rfl
  | cons b bs =>
    simp only [insertBy]
    split <;> simp

theorem sortBy_head_isSome {α : Type} (le : α → α → Bool) (l : List α) :
    ((sortBy le l).head?).isSome = !l.isEmpty := by
  cases l with
  | nil => rfl
  | cons a as => simp [sortBy, insertBy_head_isSome]

theorem not_isEmpty_filter_eq_any {α : Type} (p : α → Bool) (l : List α) :
    (!(l.filter p).isEmpty) = l.any p := by
  induction l with
  | nil => rfl
  | cons a as ih =>
    by_cases h : p a <;> simp [List.filter_cons, h, ← ih]

/-- A consent log holding one record for user 1, of a type other than
`"data_processing"`. -/
def marketingOnlyConsent : List ConsentRecord :=
  [⟨1, 1, "marketing", "2025-01-01 00:00:00"⟩]

/-- C4 counterexample: the consent check that gates the `"data_processing"` banner
passes for user 1 although the log holds no record of that type for them — a consent
record of a different type for the same user does count, because the query filters on
`user_id` only. -/
theorem consent_type_ignored_counterexample :
    consent_gate marketingOnlyConsent 1 = true ∧
    marketingOnlyConsent.all (fun r => !(r.consent_type == "data_processing")) = true := by
  decide

/-- C4 amended: the consent check is per user, not per (user, type): it returns true
iff at least one ConsentRecord exists for that `user_id`, of any consent type. -/
theorem consent_gate_per_user (db : List ConsentRecord) (user_id : Nat) :
    consent_gate db user_id = db.any (fun r => r.user_id == user_id) := by
  unfold consent_gate get_user_consent
  rw [sortBy_head_isSome, not_isEmpty_filter_eq_any]

/-! ### C5 -/

/-- C5: with the library available and a key initialized, any token the authenticated
decryption rejects (`dec k t = none` models Fernet raising `InvalidToken`) is returned
unchanged by `decrypt_value`, and no exception reaches the caller. -/
theorem decrypt_value_passthrough {K : Type} (k : K) (dec : K → String → Option String)
    (t : String) (h : dec k t = none) :
    decrypt_value true (some k) dec t = .ok t := by
  simp [decrypt_value, h]

/-- C5 witness: a concrete scheme (tokens carry the Fernet-style `"gAAAA"` tag) on
which `"not-a-valid-token"` is not valid ciphertext; it comes back unchanged. -/
theorem decrypt_value_passthrough_witness :
    decrypt_value true (some ())
      (fun _ t => if t.data.take 5 = "gAAAA".data then some (String.mk (t.data.drop 5)) else none)
      "not-a-valid-token" = .ok "not-a-valid-token" :=
  decrypt_value_passthrough ()
    (fun _ t => if t.data.take 5 = "gAAAA".data then some (String.mk (t.data.drop 5)) else none)
    "not-a-valid-token" (by decide)

/-! ### C6 -/

/-- C6: with the library available and the same key in effect for both calls,
encryption followed by decryption returns the original value (`dec k (enc k v) =
some v` is the authenticated round-trip contract of the Fernet collaborator). -/
theorem encrypt_decrypt_roundtrip {K : Type} (k : K) (enc : K → String → String)
    (dec : K → String → Option String) (v : String)
    (h : dec k (enc k v) = some v) :
    ∃ t, encrypt_value true (some k) enc v = .ok t ∧
         decrypt_value true (some k) dec t = .ok v :=
  ⟨enc k v, by simp [encrypt_value], by simp [decrypt_value, h]⟩

/-- C6 witness: the round-trip at a concrete scheme and value. -/
theorem encrypt_decrypt_roundtrip_witness :
    ∃ t, encrypt_value true (some ()) (fun _ v => "gAAAA" ++ v) "flu" = .ok t ∧
         decrypt_value true (some ())
           (fun _ t => if t.data.take 5 = "gAAAA".data then some (String.mk (t.data.drop 5)) else none)
           t = .ok "flu" :=
  encrypt_decrypt_roundtrip () (fun _ v => "gAAAA" ++ v)
    (fun _ t => if t.data.take 5 = "gAAAA".data then some (String.mk (t.data.drop 5)) else none)
    "flu" (by decide)

/-! ### C7 -/

theorem validate_name_ok_not_empty (n : String) (h : (validate_name n).1 = true) :
    n.isEmpty = false := by
  cases hn : n.isEmpty with
  | false => rfl
  | true => simp [validate_name, hn] at h

theorem validate_contact_ok_not_empty (c : String) (h : (validate_contact c).1 = true) :
    c.isEmpty = false := by
  cases hc : c.isEmpty with
  | false => rfl
  | true => simp [validate_contact, hc] at h

theorem anonymize_name_isSome (s : String) (h : s.isEmpty = false) :
    (anonymize_name (some s)).isSome = true := by
  simp [anonymize_name, h]

theorem mask_contact_isSome (s : String) (h : s.isEmpty = false) :
    (mask_contact (some s)).isSome = true := by
  by_cases h4 : 4 ≤ (s.data.filter Char.isDigit).length <;>
    simp [mask_contact, h, h4]

theorem all_filter_of_all {α : Type} (p q : α → Bool) (l : List α) (h : l.all p = true) :
    (l.filter q).all p = true := by
  rw [List.all_eq_true] at h ⊢
  intro x hx
  exact h x (List.mem_of_mem_filter hx)

theorem applyOp_preserves (st : DBState) (op : AppOp)
    (h : st.patients.all recWellFormed = true) :
    (applyOp st op).patients.all recWellFormed = true := by
  cases op with
  | addPatient n c d date =>
    by_cases hv : validateAll n c d = true
    · have hv' := hv
      simp only [validateAll, Bool.and_eq_true] at hv'
      obtain ⟨⟨h1, h2⟩, _⟩ := hv'
      simp [applyOp, hv, List.all_append, h, recWellFormed, anonAtomic,
            validate_name_ok_not_empty n h1, validate_contact_ok_not_empty c h2]
    · simp [applyOp, hv, h]
  | updatePatient pid n c d =>
    by_cases hv : validateAll n c d = true
    · have hv' := hv
      simp only [validateAll, Bool.and_eq_true] at hv'
      obtain ⟨⟨h1, h2⟩, _⟩ := hv'
      simp only [applyOp, hv, if_true]
      rw [List.all_eq_true] at h ⊢
      intro r hr
      obtain ⟨s, hs, rfl⟩ := List.mem_map.mp hr
      have hws := h s hs
      by_cases hid : s.patient_id == pid
      · simp only [hid, if_true]
        simp only [recWellFormed, anonAtomic, Bool.and_eq_true] at hws ⊢
        exact ⟨⟨by simp [validate_name_ok_not_empty n h1],
               by simp [validate_contact_ok_not_empty c h2]⟩, hws.2⟩
      · simp [hid, hws]
    · simp [applyOp, hv, h]
  | deletePatient pid =>
    simp only [applyOp]
    exact all_filter_of_all _ _ _ h
  | anonymizeAll =>
    simp only [applyOp]
    rw [List.all_eq_true] at h ⊢
    intro r hr
    obtain ⟨s, hs, rfl⟩ := List.mem_map.mp hr
    have hws := h s hs
    simp only [recWellFormed, anonAtomic, Bool.and_eq_true] at hws ⊢
    obtain ⟨⟨hn, hc⟩, _⟩ := hws
    refine ⟨⟨hn, hc⟩, ?_⟩
    simp only [Bool.not_eq_true'] at hn hc
    simp [anonymize_name_isSome _ hn, mask_contact_isSome _ hc]
  | deleteOldRecords cutoff =>
    simp only [applyOp]
    exact all_filter_of_all _ _ _ h

/-- C7: on every database state reachable from the freshly initialized system through
the app's gated write operations (validated create and update, single and bulk delete,
bulk anonymize), every patient record has `anonymized_name` and `anonymized_contact`
either both unset or both set. -/
theorem reachable_anonymization_atomic (ops : List AppOp) :
    (runOps ops).patients.all anonAtomic = true := by
  have main : ∀ (l : List AppOp) (st : DBState), st.patients.all recWellFormed = true →
      (l.foldl applyOp st).patients.all recWellFormed = true := by
    intro l
    induction l with
    | nil => intro st h; simpa using h
    | cons op rest ih =>
      intro st h
      exact ih _ (applyOp_preserves st op h)
  have h := main ops ⟨[], 1⟩ rfl
  unfold runOps
  rw [List.all_eq_true] at h ⊢
  intro r hr
  have hw := h r hr
  simp only [recWellFormed, Bool.and_eq_true] at hw
  exact hw.2

/-! ### C8 -/

theorem insertBy_perm {α : Type} (le : α → α → Bool) (a : α) (l : List α) :
    List.Perm (insertBy le a l) (a :: l) := by
  induction l with
  | nil => exact List.Perm.refl _
  | cons b bs ih =>
    simp only [insertBy]
    split
    · exact List.Perm.refl _
    · exact List.Perm.trans (List.Perm.cons b ih) (List.Perm.swap a b bs)

theorem sortBy_perm {α : Type} (le : α → α → Bool) (l : List α) :
    List.Perm (sortBy le l) l := by
  induction l with
  | nil => exact List.Perm.refl _
  | cons a as ih => exact List.Perm.trans (insertBy_perm le a (sortBy le as)) (List.Perm.cons a ih)

theorem mem_insertBy {α : Type} (le : α → α → Bool) (a x : α) (l : List α) :
    x ∈ insertBy le a l ↔ x = a ∨ x ∈ l := by
  rw [(insertBy_perm le a l).mem_iff, List.mem_cons]

theorem insertBy_pairwise {α : Type} (le : α → α → Bool)
    (htot : ∀ a b, le a b = true ∨ le b a = true)
    (htrans : ∀ a b c, le a b = true → le b c = true → le a c = true)
    (a : α) (l : List α) (h : l.Pairwise (fun x y => le x y = true)) :
    (insertBy le a l).Pairwise (fun x y => le x y = true) := by
  induction l with
  | nil => simp [insertBy]
  | cons b bs ih =>
    rw [List.pairwise_cons] at h
    obtain ⟨hb, hbs⟩ := h
    simp only [insertBy]
    split
    · rename_i hab
      rw [List.pairwise_cons]
      refine ⟨?_, ?_⟩
      · intro y hy
        rcases List.mem_cons.mp hy with rfl | hy'
        · exact hab
        · exact htrans a b y hab (hb y hy')
      · rw [List.pairwise_cons]
        exact ⟨hb, hbs⟩
    · rename_i hab
      have hba : le b a = true := (htot a b).resolve_left hab
      rw [List.pairwise_cons]
      refine ⟨?_, ih hbs⟩
      intro y hy
      rcases (mem_insertBy le a y bs).mp hy with rfl | hy'
      · exact hba
      · exact hb y hy'

theorem sortBy_pairwise {α : Type} (le : α → α → Bool)
    (htot : ∀ a b, le a b = true ∨ le b a = true)
    (htrans : ∀ a b c, le a b = true → le b c = true → le a c = true)
    (l : List α) : (sortBy le l).Pairwise (fun x y => le x y = true) := by
  induction l with
  | nil => simp [sortBy]
  | cons a as ih => exact insertBy_pairwise le htot htrans a _ ih

/-- C8: `get_patients_for_deletion` returns (the three-column projection of) exactly
the records strictly older than the cutoff, ordered oldest-first, and
`delete_old_records` at the same cutoff keeps exactly the other records and returns,
as the deleted-row count, the size of that listed set. -/
theorem retention_cutoff_spec (db : List PatientRecord) (cutoff : String) :
    (∀ row, row ∈ get_patients_for_deletion db cutoff ↔
        ∃ r, r ∈ db ∧ r.date_added < cutoff ∧ row = deletionRow r) ∧
    List.Sorted (fun a b : DeletionRow => a.date_added ≤ b.date_added)
      (get_patients_for_deletion db cutoff) ∧
    (∀ r, r ∈ (delete_old_records db cutoff).1 ↔ r ∈ db ∧ ¬(r.date_added < cutoff)) ∧
    (delete_old_records db cutoff).2 = (get_patients_for_deletion db cutoff).length := by
  refine ⟨?_, ?_, ?_, ?_⟩
  · intro row
    unfold get_patients_for_deletion
    rw [List.mem_map]
    constructor
    · rintro ⟨r, hr, rfl⟩
      rw [(sortBy_perm _ _).mem_iff, List.mem_filter] at hr
      exact ⟨r, hr.1, by simpa using hr.2, rfl⟩
    · rintro ⟨r, hrdb, hlt, rfl⟩
      refine ⟨r, ?_, rfl⟩
      rw [(sortBy_perm _ _).mem_iff, List.mem_filter]
      exact ⟨hrdb, by simpa using hlt⟩
  · have hp := sortBy_pairwise (fun r s : PatientRecord => decide (r.date_added ≤ s.date_added))
      (fun a b => by
        rcases le_total a.date_added b.date_added with h | h
        · left; simpa using h
        · right; simpa using h)
      (fun a b c hab hbc => by
        simp only [decide_eq_true_eq] at hab hbc ⊢
        exact le_trans hab hbc)
      (db.filter (fun r => decide (r.date_added < cutoff)))
    have : List.Pairwise (fun a b : DeletionRow => a.date_added ≤ b.date_added)
        (get_patients_for_deletion db cutoff) := by
      unfold get_patients_for_deletion
      rw [List.pairwise_map]
      exact hp.imp (fun h => by simpa using h)
    exact this
  · intro r
    simp [delete_old_records, List.mem_filter]
  · unfold delete_old_records get_patients_for_deletion
    rw [List.length_map, (sortBy_perm _ _).length_eq]

end HMS
